import Mathlib

/-!
Shallow embedding of `zonis/server/server.py` (class `Server`): the
connection registry, the IDENTIFY handshake (`parse_identify`), the
single-request dispatcher (`request`), the fan-out dispatcher
(`request_all`) and the administrative `disconnect`.

Python dictionaries are modelled as association lists with first-match
lookup and in-place replacement; exceptions are modelled as `Except`
values; the two transport adapter variants (plain websockets vs FastAPI)
are modelled by the `usingFastapiWebsockets` flag together with a scripted
receive behaviour on each connection handle.
-/

namespace Zonis

/-- Wire payload values, as far as the server inspects them: `null`
(the IDENTIFY acknowledgment payload), opaque strings (failure messages
and route results), and the REQUEST payload built from a route and
keyword arguments. -/
inductive PData where
  | null : PData
  | str (s : String) : PData
  | request (route : String) (arguments : List (String × String)) : PData
deriving DecidableEq, Repr

/-- A packet sent by the server: `Packet(identifier=..., type=..., data=...)`.
The identifier is optional because `packet.get("identifier")` can yield
`None`, which is then echoed back in the acknowledgment. -/
structure OutPacket where
  identifier : Option String
  type : String
  data : PData
deriving DecidableEq, Repr

/-- A packet received by the server in `request` / `request_all` after
`json.loads`: the code reads only `packet["type"]` and `packet["data"]`. -/
structure RespPacket where
  type : String
  data : PData
deriving DecidableEq, Repr

/-- Scripted behaviour of one connection handle when the server performs a
receive on it: it yields a packet, or the transport raises
`ConnectionClosedOK` (plain websockets close), or the framework raises
`WebSocketDisconnect` (FastAPI disconnect). -/
inductive RecvBehavior where
  | packet (p : RespPacket) : RecvBehavior
  | closedOK : RecvBehavior
  | disconnected : RecvBehavior
deriving DecidableEq, Repr

/-- A connection handle: an identity plus its scripted receive behaviour. -/
structure WS where
  handle : Nat
  recvBehavior : RecvBehavior
deriving DecidableEq, Repr

/-- The exceptions the embedded code can raise.  `baseZonisFrom msg cause`
models `raise BaseZonisException(msg) from cause`: the propagating
exception is the generic `BaseZonisException`, the original exception is
retained only as its cause. -/
inductive ZonisError where
  | keyError (key : String) : ZonisError
  | baseZonis (msg : String) : ZonisError
  | duplicateConnection (msg : String) : ZonisError
  | unknownClient : ZonisError
  | requestFailed (data : PData) : ZonisError
  | connectionClosedOK : ZonisError
  | webSocketDisconnect : ZonisError
  | baseZonisFrom (msg : String) (cause : ZonisError) : ZonisError
deriving DecidableEq, Repr

/-- Whether an error is the generic wrapper produced by the
`except Exception as e: raise BaseZonisException(...) from e` clause. -/
def ZonisError.isWrapped : ZonisError → Bool
  | .baseZonisFrom _ _ => true
  | _ => false

/-- The `_connections` dictionary: client identifier (possibly `None`,
since `packet.get("identifier")` can be absent) to connection handle. -/
abbrev Registry := List (Option String × WS)

/-- `dict.get(k)`: first entry with the given key, if any. -/
def dictGet (k : Option String) : Registry → Option WS
  | [] => none
  | (k₂, v) :: rest => if k₂ = k then some v else dictGet k rest

/-- `k in dict`. -/
def dictContains (k : Option String) (d : Registry) : Bool :=
  (dictGet k d).isSome

/-- `dict[k] = v`: replace the entry in place if the key is present,
otherwise append. -/
def dictInsert (k : Option String) (v : WS) : Registry → Registry
  | [] => [(k, v)]
  | (k₂, v₂) :: rest =>
      if k₂ = k then (k, v) :: rest else (k₂, v₂) :: dictInsert k v rest

/-- `dict.pop(k, None)`: drop the entry with the given key, a no-op when
absent. -/
def dictPop (k : Option String) : Registry → Registry
  | [] => []
  | (k₂, v₂) :: rest =>
      if k₂ = k then rest else (k₂, v₂) :: dictPop k rest

/-- The `Server` state: the registry plus the construction-time
configuration.  `_override_key` is always a string at runtime (a caller
supplied value or a generated `secrets.token_hex(64)`). -/
structure Server where
  connections : Registry
  secretKey : String
  overrideKey : String
  usingFastapiWebsockets : Bool
deriving DecidableEq, Repr

/-- `Server.disconnect`: `self._connections.pop(identifier, None)`.
It only mutates the registry; the connection handle is not closed. -/
def disconnect (srv : Server) (identifier : String) : Server :=
  { srv with connections := dictPop (some identifier) srv.connections }

/-- `Server._recv`: in FastAPI mode a `WebSocketDisconnect` is converted
into a raised `RequestFailed`; in plain mode exceptions propagate as is. -/
def recv (srv : Server) (conn : WS) : Except ZonisError RespPacket :=
  if srv.usingFastapiWebsockets then
    match conn.recvBehavior with
    | .packet p => .ok p
    | .closedOK => .error .connectionClosedOK
    | .disconnected =>
        .error (.requestFailed (.str "Websocket disconnected while waiting for receive."))
  else
    match conn.recvBehavior with
    | .packet p => .ok p
    | .closedOK => .error .connectionClosedOK
    | .disconnected => .error .webSocketDisconnect

/-- The REQUEST packet `request` and `request_all` serialize and send. -/
def requestPacket (clientIdentifier : Option String) (route : String)
    (kwargs : List (String × String)) : OutPacket :=
  ⟨clientIdentifier, "REQUEST", .request route kwargs⟩

/-- Observable outcome of `Server.request`: the registry afterwards (the
method never writes it), the packets sent (with their target identifier),
and the returned data or raised exception. -/
structure RequestOutcome where
  connections : Registry
  sent : List (Option String × OutPacket)
  result : Except ZonisError PData
deriving Repr

/-- `Server.request(route, client_identifier=..., kwargs)`: look up the
connection (raise `UnknownClient` if absent), send a REQUEST packet, block
for one packet, classify it: `FAILURE_RESPONSE` raises
`RequestFailed(data)`, anything else returns `data`.  In the Python
signature `client_identifier` defaults to `"DEFAULT"`. -/
def request (srv : Server) (route : String) (clientIdentifier : String)
    (kwargs : List (String × String)) : RequestOutcome :=
  match dictGet (some clientIdentifier) srv.connections with
  | none => ⟨srv.connections, [], .error .unknownClient⟩
  | some conn =>
      let out := requestPacket (some clientIdentifier) route kwargs
      match recv srv conn with
      | .error e => ⟨srv.connections, [(some clientIdentifier, out)], .error e⟩
      | .ok packet =>
          if packet.type = "FAILURE_RESPONSE" then
            ⟨srv.connections, [(some clientIdentifier, out)],
              .error (.requestFailed packet.data)⟩
          else
            ⟨srv.connections, [(some clientIdentifier, out)], .ok packet.data⟩

/-- A value stored in the `request_all` results mapping: either the
reply data or a `RequestFailed` object stored (not raised). -/
inductive RAValue where
  | value (d : PData) : RAValue
  | requestFailedVal (d : PData) : RAValue
deriving DecidableEq, Repr

/-- The loop body of `Server.request_all` over the remaining registry
entries.  Each iteration sends a REQUEST and receives one packet inside
`try: ... except ConnectionClosedOK`: that exception becomes a stored
`RequestFailed("Connection Closed")`; any other exception (for example
the `RequestFailed` raised by `_recv` in FastAPI mode) propagates and
aborts the whole call, discarding the partial results. -/
def requestAllGo (srv : Server) (route : String)
    (kwargs : List (String × String)) :
    Registry → Except ZonisError (List (Option String × RAValue))
  | [] => .ok []
  | (i, conn) :: rest =>
      let step : Except ZonisError RAValue :=
        match recv srv conn with
        | .error .connectionClosedOK =>
            .ok (.requestFailedVal (.str "Connection Closed"))
        | .error e => .error e
        | .ok packet =>
            if packet.type = "FAILURE_RESPONSE" then
              .ok (.requestFailedVal packet.data)
            else
              .ok (.value packet.data)
      match step with
      | .error e => .error e
      | .ok v =>
          match requestAllGo srv route kwargs rest with
          | .error e => .error e
          | .ok tail => .ok ((i, v) :: tail)

/-- `Server.request_all(route, kwargs)`: iterate every registered
connection, collecting one result entry per connection, or raise if an
uncaught exception escapes the per-connection `try`. -/
def request_all (srv : Server) (route : String)
    (kwargs : List (String × String)) :
    Except ZonisError (List (Option String × RAValue)) :=
  requestAllGo srv route kwargs srv.connections

/-- Characterization of the value `request_all` stores for one
connection, used to state the fan-out theorem: a connection closed with
`ConnectionClosedOK` stores `RequestFailed("Connection Closed")`, a
FAILURE_RESPONSE reply stores `RequestFailed(data)`, and any other reply
stores its data.  The `disconnected` arm is irrelevant: the fan-out
theorem excludes that behaviour by hypothesis (in plain websocket mode a
FastAPI-style disconnect does not occur). -/
def fanoutEntry (conn : WS) : RAValue :=
  match conn.recvBehavior with
  | .closedOK => .requestFailedVal (.str "Connection Closed")
  | .disconnected => .requestFailedVal (.str "Connection Closed")
  | .packet pkt =>
      if pkt.type = "FAILURE_RESPONSE" then .requestFailedVal pkt.data
      else .value pkt.data

/-- The `data` payload of an incoming IDENTIFY packet, as far as the code
reads it: `packet["data"]["secret_key"]` (KeyError when absent) and
`packet["data"].get("override_key")`. -/
structure IdentifyData where
  secret_key : Option String
  override_key : Option String
deriving DecidableEq, Repr

/-- An incoming first packet as `parse_identify` reads it:
`packet.get("identifier")` (no exception when absent), `packet["type"]`
(KeyError when absent), `packet["data"]` (KeyError when absent). -/
structure InPacket where
  identifier : Option String
  type : Option String
  data : Option IdentifyData
deriving DecidableEq, Repr

/-- Python falsiness of the optional override key: `not override_key` is
true for `None` and for the empty string. -/
def pyFalsy : Option String → Bool
  | none => true
  | some s => s == ""

/-- Observable outcome of `Server.parse_identify`: registry afterwards,
packets sent on the new connection, the close performed on it (code and
reason), and the returned identifier or raised exception. -/
structure HandshakeOutcome where
  connections : Registry
  sent : List OutPacket
  closedWith : Option (Nat × String)
  result : Except ZonisError (Option String)
deriving Repr

/-- The body of the `try` block of `Server.parse_identify`, before the
wrapping `except Exception` clause. -/
def parseIdentifyInner (srv : Server) (packet : InPacket) (websocket : WS) :
    HandshakeOutcome :=
  match packet.type with
  | none => ⟨srv.connections, [], none, .error (.keyError "type")⟩
  | some wsType =>
      if wsType ≠ "IDENTIFY" then
        ⟨srv.connections, [],
          some (4101, "Expected IDENTIFY, received " ++ wsType),
          .error (.baseZonis
            ("Unexpected ws response type, expected IDENTIFY, received " ++ wsType))⟩
      else
        match packet.data with
        | none => ⟨srv.connections, [], none, .error (.keyError "data")⟩
        | some d =>
            match d.secret_key with
            | none => ⟨srv.connections, [], none, .error (.keyError "secret_key")⟩
            | some sk =>
                if sk ≠ srv.secretKey then
                  ⟨srv.connections, [], some (4100, "Invalid secret key."),
                    .error (.baseZonis
                      "Client attempted to connect with an incorrect secret key.")⟩
                else
                  if dictContains packet.identifier srv.connections &&
                      (pyFalsy d.override_key ||
                        d.override_key != some srv.overrideKey) then
                    ⟨srv.connections, [],
                      some (4102, "Duplicate identifier on IDENTIFY"),
                      .error (.duplicateConnection "Identify failed.")⟩
                  else
                    ⟨dictInsert packet.identifier websocket srv.connections,
                      [⟨packet.identifier, "IDENTIFY", .null⟩], none,
                      .ok packet.identifier⟩

/-- `Server.parse_identify`: the body above wrapped by
`except Exception as e: raise BaseZonisException("Identify failed") from e`,
which re-raises every failure — including the explicit handshake
rejections raised inside the `try` — as the generic wrapper. -/
def parse_identify (srv : Server) (packet : InPacket) (websocket : WS) :
    HandshakeOutcome :=
  let r := parseIdentifyInner srv packet websocket
  match r.result with
  | .ok _ => r
  | .error e => { r with result := .error (.baseZonisFrom "Identify failed" e) }

/-!
## Dictionary lemmas
-/

theorem dictGet_dictInsert_self (k : Option String) (v : WS) (d : Registry) :
    dictGet k (dictInsert k v d) = some v := by
  induction d with
  | nil => simp [dictInsert, dictGet]
  | cons hd tl ih =>
      obtain ⟨k₂, v₂⟩ := hd
      by_cases h : k₂ = k
      · simp [dictInsert, h, dictGet]
      · simp [dictInsert, h, dictGet, ih]

theorem dictGet_not_mem (k : Option String) (d : Registry)
    (h : ∀ p ∈ d, p.1 ≠ k) : dictGet k d = none := by
  induction d with
  | nil => rfl
  | cons hd tl ih =>
      obtain ⟨k₂, v₂⟩ := hd
      simp only [dictGet]
      rw [if_neg (h (k₂, v₂) (List.mem_cons_self _ _))]
      exact ih fun p hp => h p (List.mem_cons_of_mem _ hp)

theorem not_mem_of_dictGet_eq_none (k : Option String) (d : Registry)
    (h : dictGet k d = none) : ∀ p ∈ d, p.1 ≠ k := by
  induction d with
  | nil => intro p hp; cases hp
  | cons hd tl ih =>
      obtain ⟨k₂, v₂⟩ := hd
      simp only [dictGet] at h
      by_cases hk : k₂ = k
      · rw [if_pos hk] at h; cases h
      · intro p hp
        rcases List.mem_cons.mp hp with rfl | hp
        · exact hk
        · exact ih (by rwa [if_neg hk] at h) p hp

theorem dictGet_dictPop_self (k : Option String) (d : Registry)
    (h : (d.map Prod.fst).Nodup) : dictGet k (dictPop k d) = none := by
  induction d with
  | nil => rfl
  | cons hd tl ih =>
      obtain ⟨k₂, v₂⟩ := hd
      simp only [List.map_cons, List.nodup_cons] at h
      by_cases hk : k₂ = k
      · subst hk
        simp only [dictPop, if_pos rfl]
        exact dictGet_not_mem _ _ fun p hp hpk =>
          h.1 (hpk ▸ List.mem_map_of_mem Prod.fst hp)
      · simp only [dictPop, if_neg hk, dictGet]
        exact ih h.2

theorem dictGet_dictPop_ne (k q : Option String) (d : Registry)
    (hne : q ≠ k) : dictGet q (dictPop k d) = dictGet q d := by
  induction d with
  | nil => rfl
  | cons hd tl ih =>
      obtain ⟨k₂, v₂⟩ := hd
      by_cases hk : k₂ = k
      · subst hk
        simp [dictPop, dictGet, Ne.symm hne]
      · simp [dictPop, dictGet, hk, ih]

theorem dictPop_not_mem (k : Option String) (d : Registry)
    (h : ∀ p ∈ d, p.1 ≠ k) : dictPop k d = d := by
  induction d with
  | nil => rfl
  | cons hd tl ih =>
      obtain ⟨k₂, v₂⟩ := hd
      simp only [dictPop]
      rw [if_neg (h (k₂, v₂) (List.mem_cons_self _ _))]
      rw [ih fun p hp => h p (List.mem_cons_of_mem _ hp)]

/-!
## Characterization of handshake failures

Shared helper: every error raised out of `parse_identify` is the generic
wrapper `BaseZonisException("Identify failed")` with the inner exception
as its cause, and the close behaviour is determined by which inner
exception occurred.
-/

theorem parse_identify_error_spec (srv : Server) (packet : InPacket) (ws : WS)
    (e : ZonisError) (h : (parse_identify srv packet ws).result = .error e) :
    (∃ k, e = .baseZonisFrom "Identify failed" (.keyError k) ∧
      (parse_identify srv packet ws).closedWith = none) ∨
    (∃ m, e = .baseZonisFrom "Identify failed" (.baseZonis m) ∧
      ∃ c, (parse_identify srv packet ws).closedWith = some c) ∨
    (e = .baseZonisFrom "Identify failed" (.duplicateConnection "Identify failed.") ∧
      (parse_identify srv packet ws).closedWith =
        some (4102, "Duplicate identifier on IDENTIFY")) := by
  obtain ⟨pid, pty, pdata⟩ := packet
  cases pty with
  | none =>
      have he : e = .baseZonisFrom "Identify failed" (.keyError "type") := by
        simpa [parse_identify, parseIdentifyInner] using h.symm
      exact Or.inl ⟨"type", he, rfl⟩
  | some t =>
      by_cases ht : t = "IDENTIFY"
      · subst ht
        cases pdata with
        | none =>
            have he : e = .baseZonisFrom "Identify failed" (.keyError "data") := by
              simpa [parse_identify, parseIdentifyInner] using h.symm
            exact Or.inl ⟨"data", he, rfl⟩
        | some d =>
            obtain ⟨dsk, dov⟩ := d
            cases dsk with
            | none =>
                have he : e = .baseZonisFrom "Identify failed" (.keyError "secret_key") := by
                  simpa [parse_identify, parseIdentifyInner] using h.symm
                exact Or.inl ⟨"secret_key", he, rfl⟩
            | some sk =>
                by_cases hsk : sk = srv.secretKey
                · subst hsk
                  by_cases hdup :
                      (dictContains pid srv.connections &&
                        (pyFalsy dov || dov != some srv.overrideKey)) = true
                  · have he : e = .baseZonisFrom "Identify failed"
                        (.duplicateConnection "Identify failed.") := by
                      simpa [parse_identify, parseIdentifyInner, hdup] using h.symm
                    refine Or.inr (Or.inr ⟨he, ?_⟩)
                    simp [parse_identify, parseIdentifyInner, hdup]
                  · exfalso
                    simp [parse_identify, parseIdentifyInner, hdup] at h
                · have he : e = .baseZonisFrom "Identify failed"
                      (.baseZonis "Client attempted to connect with an incorrect secret key.") := by
                    simpa [parse_identify, parseIdentifyInner, hsk] using h.symm
                  refine Or.inr (Or.inl ⟨_, he, (4100, "Invalid secret key."), ?_⟩)
                  simp [parse_identify, parseIdentifyInner, hsk]
      · have he : e = .baseZonisFrom "Identify failed"
            (.baseZonis ("Unexpected ws response type, expected IDENTIFY, received " ++ t)) := by
          simpa [parse_identify, parseIdentifyInner, ht] using h.symm
        refine Or.inr (Or.inl ⟨_, he,
          (4101, "Expected IDENTIFY, received " ++ t), ?_⟩)
        simp [parse_identify, parseIdentifyInner, ht]

/-!
## Claim theorems
-/

/-- Claim C5: an IDENTIFY packet whose secret key differs from the
configured one leaves the registry unchanged, closes the connection with
the authentication close code 4100, and fails (with the wrapped
wrong-secret-key error). -/
theorem C5_wrong_secret_key (srv : Server) (packet : InPacket) (ws : WS)
    (d : IdentifyData) (sk : String)
    (hty : packet.type = some "IDENTIFY")
    (hdata : packet.data = some d)
    (hsk : d.secret_key = some sk)
    (hne : sk ≠ srv.secretKey) :
    (parse_identify srv packet ws).connections = srv.connections ∧
    (parse_identify srv packet ws).closedWith = some (4100, "Invalid secret key.") ∧
    (parse_identify srv packet ws).result =
      .error (.baseZonisFrom "Identify failed"
        (.baseZonis "Client attempted to connect with an incorrect secret key.")) := by
  refine ⟨?_, ?_, ?_⟩ <;>
    simp [parse_identify, parseIdentifyInner, hty, hdata, hsk, hne]

/-- Claim C5 witness: a concrete wrong-secret-key handshake against an
empty registry. -/
theorem C5_wrong_secret_key_witness :
    (parse_identify ⟨[], "good", "ov", false⟩
        ⟨some "A", some "IDENTIFY", some ⟨some "bad", none⟩⟩
        ⟨0, RecvBehavior.closedOK⟩).connections = [] ∧
    (parse_identify ⟨[], "good", "ov", false⟩
        ⟨some "A", some "IDENTIFY", some ⟨some "bad", none⟩⟩
        ⟨0, RecvBehavior.closedOK⟩).closedWith = some (4100, "Invalid secret key.") ∧
    (parse_identify ⟨[], "good", "ov", false⟩
        ⟨some "A", some "IDENTIFY", some ⟨some "bad", none⟩⟩
        ⟨0, RecvBehavior.closedOK⟩).result =
      .error (.baseZonisFrom "Identify failed"
        (.baseZonis "Client attempted to connect with an incorrect secret key.")) :=
  C5_wrong_secret_key ⟨[], "good", "ov", false⟩
    ⟨some "A", some "IDENTIFY", some ⟨some "bad", none⟩⟩
    ⟨0, RecvBehavior.closedOK⟩ ⟨some "bad", none⟩ "bad" rfl rfl rfl (by decide)

/-- Claim C6: a valid IDENTIFY (correct secret key, identifier not yet
registered) installs the identifier in the registry mapped to the new
connection, sends back an IDENTIFY acknowledgment with null data on the
same connection, and returns the identifier. -/
theorem C6_valid_identify (srv : Server) (packet : InPacket) (ws : WS)
    (d : IdentifyData)
    (hty : packet.type = some "IDENTIFY")
    (hdata : packet.data = some d)
    (hsk : d.secret_key = some srv.secretKey)
    (hfresh : dictContains packet.identifier srv.connections = false) :
    (parse_identify srv packet ws).connections =
      dictInsert packet.identifier ws srv.connections ∧
    dictGet packet.identifier (parse_identify srv packet ws).connections = some ws ∧
    (parse_identify srv packet ws).sent =
      [⟨packet.identifier, "IDENTIFY", PData.null⟩] ∧
    (parse_identify srv packet ws).closedWith = none ∧
    (parse_identify srv packet ws).result = .ok packet.identifier := by
  refine ⟨?_, ?_, ?_, ?_, ?_⟩ <;>
    simp [parse_identify, parseIdentifyInner, hty, hdata, hsk, hfresh,
      dictGet_dictInsert_self]

/-- Claim C6 witness: a concrete first-time IDENTIFY for client B against
a registry holding only client A. -/
theorem C6_valid_identify_witness :
    (parse_identify ⟨[(some "A", ⟨0, RecvBehavior.closedOK⟩)], "s", "ov", false⟩
        ⟨some "B", some "IDENTIFY", some ⟨some "s", none⟩⟩
        ⟨1, RecvBehavior.closedOK⟩).connections =
      dictInsert (some "B") ⟨1, RecvBehavior.closedOK⟩
        [(some "A", ⟨0, RecvBehavior.closedOK⟩)] ∧
    dictGet (some "B")
      (parse_identify ⟨[(some "A", ⟨0, RecvBehavior.closedOK⟩)], "s", "ov", false⟩
        ⟨some "B", some "IDENTIFY", some ⟨some "s", none⟩⟩
        ⟨1, RecvBehavior.closedOK⟩).connections = some ⟨1, RecvBehavior.closedOK⟩ ∧
    (parse_identify ⟨[(some "A", ⟨0, RecvBehavior.closedOK⟩)], "s", "ov", false⟩
        ⟨some "B", some "IDENTIFY", some ⟨some "s", none⟩⟩
        ⟨1, RecvBehavior.closedOK⟩).sent = [⟨some "B", "IDENTIFY", PData.null⟩] ∧
    (parse_identify ⟨[(some "A", ⟨0, RecvBehavior.closedOK⟩)], "s", "ov", false⟩
        ⟨some "B", some "IDENTIFY", some ⟨some "s", none⟩⟩
        ⟨1, RecvBehavior.closedOK⟩).closedWith = none ∧
    (parse_identify ⟨[(some "A", ⟨0, RecvBehavior.closedOK⟩)], "s", "ov", false⟩
        ⟨some "B", some "IDENTIFY", some ⟨some "s", none⟩⟩
        ⟨1, RecvBehavior.closedOK⟩).result = .ok (some "B") :=
  C6_valid_identify ⟨[(some "A", ⟨0, RecvBehavior.closedOK⟩)], "s", "ov", false⟩
    ⟨some "B", some "IDENTIFY", some ⟨some "s", none⟩⟩
    ⟨1, RecvBehavior.closedOK⟩ ⟨some "s", none⟩ rfl rfl rfl (by decide)

/-- Claim C8: a request for an identifier with no registered connection
raises UnknownClient, sends nothing on any connection, and leaves the
registry unchanged. -/
theorem C8_unknown_client (srv : Server) (route clientIdentifier : String)
    (kwargs : List (String × String))
    (h : dictGet (some clientIdentifier) srv.connections = none) :
    (request srv route clientIdentifier kwargs).result = .error .unknownClient ∧
    (request srv route clientIdentifier kwargs).sent = [] ∧
    (request srv route clientIdentifier kwargs).connections = srv.connections := by
  refine ⟨?_, ?_, ?_⟩ <;> simp [request, h]

/-- Claim C8 witness: requesting the never-registered identifier B from a
server that only knows client A. -/
theorem C8_unknown_client_witness :
    (request ⟨[(some "A", ⟨0, RecvBehavior.closedOK⟩)], "s", "ov", false⟩
        "ping" "B" []).result = .error .unknownClient ∧
    (request ⟨[(some "A", ⟨0, RecvBehavior.closedOK⟩)], "s", "ov", false⟩
        "ping" "B" []).sent = [] ∧
    (request ⟨[(some "A", ⟨0, RecvBehavior.closedOK⟩)], "s", "ov", false⟩
        "ping" "B" []).connections = [(some "A", ⟨0, RecvBehavior.closedOK⟩)] :=
  C8_unknown_client ⟨[(some "A", ⟨0, RecvBehavior.closedOK⟩)], "s", "ov", false⟩
    "ping" "B" [] (by decide)

/-- Claim C10: an IDENTIFY for an already-registered identifier carrying
the empty string as override key is rejected as a duplicate — the empty
credential is falsy in Python, so it counts as absent — even when the
configured override key is itself the empty string (as in the witness
below); the registry is unchanged, the new connection is closed with
4102, and the handshake fails with DuplicateConnection as the cause of
the generic identify-failure wrapper. -/
theorem C10_empty_override_key (srv : Server) (packet : InPacket) (ws : WS)
    (d : IdentifyData)
    (hty : packet.type = some "IDENTIFY")
    (hdata : packet.data = some d)
    (hsk : d.secret_key = some srv.secretKey)
    (hov : d.override_key = some "")
    (hdup : dictContains packet.identifier srv.connections = true) :
    (parse_identify srv packet ws).connections = srv.connections ∧
    (parse_identify srv packet ws).closedWith =
      some (4102, "Duplicate identifier on IDENTIFY") ∧
    (parse_identify srv packet ws).result =
      .error (.baseZonisFrom "Identify failed"
        (.duplicateConnection "Identify failed.")) := by
  refine ⟨?_, ?_, ?_⟩ <;>
    simp [parse_identify, parseIdentifyInner, hty, hdata, hsk, hov, hdup, pyFalsy]

/-- Claim C10 witness: the configured override key is the empty string
and the packet carries the empty string, yet the duplicate IDENTIFY is
rejected. -/
theorem C10_empty_override_key_witness :
    (parse_identify ⟨[(some "A", ⟨0, RecvBehavior.closedOK⟩)], "s", "", false⟩
        ⟨some "A", some "IDENTIFY", some ⟨some "s", some ""⟩⟩
        ⟨1, RecvBehavior.closedOK⟩).connections =
      [(some "A", ⟨0, RecvBehavior.closedOK⟩)] ∧
    (parse_identify ⟨[(some "A", ⟨0, RecvBehavior.closedOK⟩)], "s", "", false⟩
        ⟨some "A", some "IDENTIFY", some ⟨some "s", some ""⟩⟩
        ⟨1, RecvBehavior.closedOK⟩).closedWith =
      some (4102, "Duplicate identifier on IDENTIFY") ∧
    (parse_identify ⟨[(some "A", ⟨0, RecvBehavior.closedOK⟩)], "s", "", false⟩
        ⟨some "A", some "IDENTIFY", some ⟨some "s", some ""⟩⟩
        ⟨1, RecvBehavior.closedOK⟩).result =
      .error (.baseZonisFrom "Identify failed"
        (.duplicateConnection "Identify failed.")) :=
  C10_empty_override_key ⟨[(some "A", ⟨0, RecvBehavior.closedOK⟩)], "s", "", false⟩
    ⟨some "A", some "IDENTIFY", some ⟨some "s", some ""⟩⟩
    ⟨1, RecvBehavior.closedOK⟩ ⟨some "s", some ""⟩ rfl rfl rfl rfl (by decide)

/-- Claim C1 counterexample: the claim as stated is false.  With the
configured override key equal to the empty string, a second IDENTIFY for
the already-registered identifier A that carries exactly the configured
override key (the empty string) is still rejected: the registry entry
still points to the original connection (handle 0, not the new handle 1)
and the handshake fails, because Python treats the empty credential as
absent. -/
theorem C1_duplicate_identifier_counterexample :
    (⟨some "s", some ""⟩ : IdentifyData).override_key =
      some (Server.mk [(some "A", ⟨0, RecvBehavior.closedOK⟩)] "s" "" false).overrideKey ∧
    dictGet (some "A")
      (parse_identify (Server.mk [(some "A", ⟨0, RecvBehavior.closedOK⟩)] "s" "" false)
        ⟨some "A", some "IDENTIFY", some ⟨some "s", some ""⟩⟩
        ⟨1, RecvBehavior.closedOK⟩).connections = some ⟨0, RecvBehavior.closedOK⟩ ∧
    (parse_identify (Server.mk [(some "A", ⟨0, RecvBehavior.closedOK⟩)] "s" "" false)
        ⟨some "A", some "IDENTIFY", some ⟨some "s", some ""⟩⟩
        ⟨1, RecvBehavior.closedOK⟩).result =
      .error (.baseZonisFrom "Identify failed"
        (.duplicateConnection "Identify failed.")) :=
  ⟨rfl, rfl, rfl⟩

/-- Claim C1 (amended): for a duplicate identifier, an IDENTIFY whose
override key is falsy (absent or empty) or different from the configured
override key leaves the registry unchanged, closes the new connection
with 4102 and fails with DuplicateConnection (as the cause of the generic
identify-failure wrapper); an IDENTIFY whose override key is non-empty
and equal to the configured override key makes the registry entry point
to the new connection. -/
theorem C1_duplicate_identifier (srv : Server) (packet : InPacket) (ws : WS)
    (d : IdentifyData)
    (hty : packet.type = some "IDENTIFY")
    (hdata : packet.data = some d)
    (hsk : d.secret_key = some srv.secretKey)
    (hdup : dictContains packet.identifier srv.connections = true) :
    ((pyFalsy d.override_key = true ∨ d.override_key ≠ some srv.overrideKey) →
      (parse_identify srv packet ws).connections = srv.connections ∧
      (parse_identify srv packet ws).closedWith =
        some (4102, "Duplicate identifier on IDENTIFY") ∧
      (parse_identify srv packet ws).result =
        .error (.baseZonisFrom "Identify failed"
          (.duplicateConnection "Identify failed."))) ∧
    ((pyFalsy d.override_key = false ∧ d.override_key = some srv.overrideKey) →
      dictGet packet.identifier (parse_identify srv packet ws).connections = some ws ∧
      (parse_identify srv packet ws).closedWith = none ∧
      (parse_identify srv packet ws).sent =
        [⟨packet.identifier, "IDENTIFY", PData.null⟩] ∧
      (parse_identify srv packet ws).result = .ok packet.identifier) := by
  constructor
  · intro hre
    have hcond : (dictContains packet.identifier srv.connections &&
        (pyFalsy d.override_key || d.override_key != some srv.overrideKey)) = true := by
      rcases hre with hf | hne
      · simp [hdup, hf]
      · simp [hdup, bne_iff_ne, hne]
    refine ⟨?_, ?_, ?_⟩ <;>
      simp [parse_identify, parseIdentifyInner, hty, hdata, hsk, hcond]
  · rintro ⟨hf, heq⟩
    have hcond : (dictContains packet.identifier srv.connections &&
        (pyFalsy d.override_key || d.override_key != some srv.overrideKey)) = false := by
      rw [heq] at hf
      simp [heq, hf]
    refine ⟨?_, ?_, ?_, ?_⟩ <;>
      simp [parse_identify, parseIdentifyInner, hty, hdata, hsk, hcond,
        dictGet_dictInsert_self]

/-- Claim C1 witness: client A is registered on handle 0; a second
IDENTIFY for A carrying the non-matching override key "wrong" is rejected
with the registry untouched, while one carrying the matching non-empty
override key "ov" makes the registry entry point to the new handle 1. -/
theorem C1_duplicate_identifier_witness :
    ((parse_identify ⟨[(some "A", ⟨0, RecvBehavior.closedOK⟩)], "s", "ov", false⟩
        ⟨some "A", some "IDENTIFY", some ⟨some "s", some "wrong"⟩⟩
        ⟨1, RecvBehavior.closedOK⟩).connections =
      [(some "A", ⟨0, RecvBehavior.closedOK⟩)] ∧
     (parse_identify ⟨[(some "A", ⟨0, RecvBehavior.closedOK⟩)], "s", "ov", false⟩
        ⟨some "A", some "IDENTIFY", some ⟨some "s", some "wrong"⟩⟩
        ⟨1, RecvBehavior.closedOK⟩).closedWith =
      some (4102, "Duplicate identifier on IDENTIFY") ∧
     (parse_identify ⟨[(some "A", ⟨0, RecvBehavior.closedOK⟩)], "s", "ov", false⟩
        ⟨some "A", some "IDENTIFY", some ⟨some "s", some "wrong"⟩⟩
        ⟨1, RecvBehavior.closedOK⟩).result =
      .error (.baseZonisFrom "Identify failed"
        (.duplicateConnection "Identify failed."))) ∧
    dictGet (some "A")
      (parse_identify ⟨[(some "A", ⟨0, RecvBehavior.closedOK⟩)], "s", "ov", false⟩
        ⟨some "A", some "IDENTIFY", some ⟨some "s", some "ov"⟩⟩
        ⟨2, RecvBehavior.closedOK⟩).connections = some ⟨2, RecvBehavior.closedOK⟩ :=
  ⟨(C1_duplicate_identifier ⟨[(some "A", ⟨0, RecvBehavior.closedOK⟩)], "s", "ov", false⟩
      ⟨some "A", some "IDENTIFY", some ⟨some "s", some "wrong"⟩⟩
      ⟨1, RecvBehavior.closedOK⟩ ⟨some "s", some "wrong"⟩ rfl rfl rfl (by decide)).1
    (Or.inr (by decide)),
   ((C1_duplicate_identifier ⟨[(some "A", ⟨0, RecvBehavior.closedOK⟩)], "s", "ov", false⟩
      ⟨some "A", some "IDENTIFY", some ⟨some "s", some "ov"⟩⟩
      ⟨2, RecvBehavior.closedOK⟩ ⟨some "s", some "ov"⟩ rfl rfl rfl (by decide)).2
    ⟨by decide, rfl⟩).1⟩

/-- Claim C3 counterexample: the claim as stated is false.  An IDENTIFY
packet with no data field is a failing handshake (it raises the wrapped
KeyError), yet the connection is not closed: the offending connection is
left open. -/
theorem C3_close_counterexample :
    (parse_identify ⟨[], "s", "ov", false⟩
        ⟨some "A", some "IDENTIFY", none⟩ ⟨0, RecvBehavior.closedOK⟩).result =
      .error (.baseZonisFrom "Identify failed" (.keyError "data")) ∧
    (parse_identify ⟨[], "s", "ov", false⟩
        ⟨some "A", some "IDENTIFY", none⟩ ⟨0, RecvBehavior.closedOK⟩).closedWith =
      none :=
  ⟨rfl, rfl⟩

/-- Claim C3 (amended): only the three explicit rejection paths
(non-IDENTIFY first packet, wrong secret key, duplicate identifier) close
the offending connection before the error is raised; an unexpected
failure while processing (a malformed packet missing the type, data or
secret key field) raises the wrapped error without closing the
connection. -/
theorem C3_close_before_raise (srv : Server) (packet : InPacket) (ws : WS)
    (e : ZonisError)
    (h : (parse_identify srv packet ws).result = .error e) :
    ((∃ k, e = .baseZonisFrom "Identify failed" (.keyError k)) ∧
      (parse_identify srv packet ws).closedWith = none) ∨
    ((∃ c, (parse_identify srv packet ws).closedWith = some c) ∧
      ∃ m, e = .baseZonisFrom "Identify failed" (.baseZonis m) ∨
        e = .baseZonisFrom "Identify failed" (.duplicateConnection m)) := by
  rcases parse_identify_error_spec srv packet ws e h with
    ⟨k, hk, hc⟩ | ⟨m, hm, c, hc⟩ | ⟨hm, hc⟩
  · exact Or.inl ⟨⟨k, hk⟩, hc⟩
  · exact Or.inr ⟨⟨c, hc⟩, m, Or.inl hm⟩
  · exact Or.inr ⟨⟨_, hc⟩, "Identify failed.", Or.inr hm⟩

/-- Claim C3 witness: the theorem applied to the concrete malformed
packet of the counterexample, landing in the no-close disjunct. -/
theorem C3_close_before_raise_witness :
    ((∃ k, ZonisError.baseZonisFrom "Identify failed" (.keyError "data") =
        .baseZonisFrom "Identify failed" (.keyError k)) ∧
      (parse_identify ⟨[], "s", "ov", false⟩
        ⟨some "A", some "IDENTIFY", none⟩ ⟨0, RecvBehavior.closedOK⟩).closedWith =
        none) ∨
    ((∃ c, (parse_identify ⟨[], "s", "ov", false⟩
        ⟨some "A", some "IDENTIFY", none⟩ ⟨0, RecvBehavior.closedOK⟩).closedWith =
        some c) ∧
      ∃ m, ZonisError.baseZonisFrom "Identify failed" (.keyError "data") =
          .baseZonisFrom "Identify failed" (.baseZonis m) ∨
        ZonisError.baseZonisFrom "Identify failed" (.keyError "data") =
          .baseZonisFrom "Identify failed" (.duplicateConnection m)) :=
  C3_close_before_raise ⟨[], "s", "ov", false⟩
    ⟨some "A", some "IDENTIFY", none⟩ ⟨0, RecvBehavior.closedOK⟩
    (.baseZonisFrom "Identify failed" (.keyError "data")) rfl

/-- Claim C4 counterexample: the claim as stated is false.  A wrong
secret key — one of the three expected terminal failures — does not
surface as a distinct unwrapped error kind: the error the caller
receives is always the generic wrapper BaseZonisException with the
inner failure only as its cause. -/
theorem C4_wrapped_counterexample :
    (parse_identify ⟨[], "good", "ov", false⟩
        ⟨some "A", some "IDENTIFY", some ⟨some "bad", none⟩⟩
        ⟨0, RecvBehavior.closedOK⟩).result =
      .error (.baseZonisFrom "Identify failed"
        (.baseZonis "Client attempted to connect with an incorrect secret key.")) ∧
    ∀ e, (parse_identify ⟨[], "good", "ov", false⟩
        ⟨some "A", some "IDENTIFY", some ⟨some "bad", none⟩⟩
        ⟨0, RecvBehavior.closedOK⟩).result = .error e → e.isWrapped = true := by
  refine ⟨rfl, fun e h => ?_⟩
  have h2 := (rfl :
    (parse_identify ⟨[], "good", "ov", false⟩
        ⟨some "A", some "IDENTIFY", some ⟨some "bad", none⟩⟩
        ⟨0, RecvBehavior.closedOK⟩).result =
      .error (.baseZonisFrom "Identify failed"
        (.baseZonis "Client attempted to connect with an incorrect secret key."))).symm.trans h
  injection h2 with h3
  rw [← h3]
  rfl

/-- Claim C4 (amended): no handshake failure surfaces unwrapped.  Every
error raised out of parse_identify, expected or unexpected, is the
generic BaseZonisException wrapper with the original failure as its
cause, and the expected failures are not distinct error kinds: the
non-IDENTIFY and wrong-secret-key rejections raise the plain generic
BaseZonisException (distinguished only by message), the duplicate
rejection raises DuplicateConnection, and malformed packets raise the
underlying KeyError — each reaching the caller only as the cause of the
wrapper. -/
theorem C4_failures_always_wrapped (srv : Server) (packet : InPacket) (ws : WS)
    (e : ZonisError)
    (h : (parse_identify srv packet ws).result = .error e) :
    ∃ c, e = .baseZonisFrom "Identify failed" c ∧ c.isWrapped = false ∧
      ((∃ k, c = .keyError k) ∨ (∃ m, c = .baseZonis m) ∨
        c = .duplicateConnection "Identify failed.") := by
  rcases parse_identify_error_spec srv packet ws e h with
    ⟨k, hk, _⟩ | ⟨m, hm, _⟩ | ⟨hm, _⟩
  · exact ⟨_, hk, rfl, Or.inl ⟨k, rfl⟩⟩
  · exact ⟨_, hm, rfl, Or.inr (Or.inl ⟨m, rfl⟩)⟩
  · exact ⟨_, hm, rfl, Or.inr (Or.inr rfl)⟩

/-- Claim C4 witness: the theorem applied to a concrete duplicate
IDENTIFY, whose error is the wrapper around DuplicateConnection. -/
theorem C4_failures_always_wrapped_witness :
    ∃ c, ZonisError.baseZonisFrom "Identify failed"
        (.duplicateConnection "Identify failed.") =
      .baseZonisFrom "Identify failed" c ∧ c.isWrapped = false ∧
      ((∃ k, c = .keyError k) ∨ (∃ m, c = .baseZonis m) ∨
        c = .duplicateConnection "Identify failed.") :=
  C4_failures_always_wrapped
    ⟨[(some "A", ⟨0, RecvBehavior.closedOK⟩)], "s", "ov", false⟩
    ⟨some "A", some "IDENTIFY", some ⟨some "s", none⟩⟩
    ⟨1, RecvBehavior.closedOK⟩
    (.baseZonisFrom "Identify failed" (.duplicateConnection "Identify failed.")) rfl

/-- Claim C7: for a request against a registered connection, after the
REQUEST packet is sent the next inbound packet on that connection
determines the outcome — FAILURE_RESPONSE raises RequestFailed with the
packet data, any other type returns the packet data. -/
theorem C7_response_classification (srv : Server)
    (route clientIdentifier : String) (kwargs : List (String × String))
    (conn : WS) (pkt : RespPacket)
    (hconn : dictGet (some clientIdentifier) srv.connections = some conn)
    (hrecv : conn.recvBehavior = .packet pkt) :
    (request srv route clientIdentifier kwargs).sent =
      [(some clientIdentifier, requestPacket (some clientIdentifier) route kwargs)] ∧
    (pkt.type = "FAILURE_RESPONSE" →
      (request srv route clientIdentifier kwargs).result =
        .error (.requestFailed pkt.data)) ∧
    (pkt.type ≠ "FAILURE_RESPONSE" →
      (request srv route clientIdentifier kwargs).result = .ok pkt.data) := by
  have hr : recv srv conn = .ok pkt := by
    unfold recv
    cases srv.usingFastapiWebsockets <;> simp [hrecv]
  refine ⟨?_, fun hf => ?_, fun hf => ?_⟩
  · by_cases hft : pkt.type = "FAILURE_RESPONSE" <;> simp [request, hconn, hr, hft]
  · simp [request, hconn, hr, hf]
  · simp [request, hconn, hr, hf]

/-- Claim C7 witness: a connection that immediately replies with a
RESPONSE packet carrying "pong" makes the request return "pong", and a
connection replying FAILURE_RESPONSE "boom" makes it raise RequestFailed
"boom". -/
theorem C7_response_classification_witness :
    (request ⟨[(some "A", ⟨0, RecvBehavior.packet ⟨"RESPONSE", .str "pong"⟩⟩)],
        "s", "ov", false⟩ "ping" "A" []).result = .ok (.str "pong") ∧
    (request ⟨[(some "B", ⟨1, RecvBehavior.packet ⟨"FAILURE_RESPONSE", .str "boom"⟩⟩)],
        "s", "ov", false⟩ "ping" "B" []).result =
      .error (.requestFailed (.str "boom")) :=
  ⟨(C7_response_classification
      ⟨[(some "A", ⟨0, RecvBehavior.packet ⟨"RESPONSE", .str "pong"⟩⟩)], "s", "ov", false⟩
      "ping" "A" [] ⟨0, RecvBehavior.packet ⟨"RESPONSE", .str "pong"⟩⟩
      ⟨"RESPONSE", .str "pong"⟩ rfl rfl).2.2 (by decide),
   (C7_response_classification
      ⟨[(some "B", ⟨1, RecvBehavior.packet ⟨"FAILURE_RESPONSE", .str "boom"⟩⟩)], "s", "ov", false⟩
      "ping" "B" [] ⟨1, RecvBehavior.packet ⟨"FAILURE_RESPONSE", .str "boom"⟩⟩
      ⟨"FAILURE_RESPONSE", .str "boom"⟩ rfl rfl).2.1 rfl⟩

/-- Claim C9: disconnect removes the registry entry for the identifier
(a no-op when absent, hence idempotent), touches no other entry and does
not close the connection handle, and a subsequent request for that
identifier raises UnknownClient and sends nothing, regardless of the
state of the underlying connection.  The no-duplicate-keys hypothesis is
the Python dict invariant. -/
theorem C9_disconnect (srv : Server) (identifier route : String)
    (kwargs : List (String × String))
    (hnodup : (srv.connections.map Prod.fst).Nodup) :
    dictGet (some identifier) (disconnect srv identifier).connections = none ∧
    disconnect (disconnect srv identifier) identifier = disconnect srv identifier ∧
    (dictGet (some identifier) srv.connections = none →
      (disconnect srv identifier).connections = srv.connections) ∧
    (∀ k, k ≠ some identifier →
      dictGet k (disconnect srv identifier).connections =
        dictGet k srv.connections) ∧
    (request (disconnect srv identifier) route identifier kwargs).result =
      .error .unknownClient ∧
    (request (disconnect srv identifier) route identifier kwargs).sent = [] := by
  have h1 : dictGet (some identifier) (dictPop (some identifier) srv.connections) =
      none := dictGet_dictPop_self _ _ hnodup
  refine ⟨h1, ?_, ?_, ?_, ?_, ?_⟩
  · have h2 : dictPop (some identifier) (dictPop (some identifier) srv.connections) =
        dictPop (some identifier) srv.connections :=
      dictPop_not_mem _ _ (not_mem_of_dictGet_eq_none _ _ h1)
    simp [disconnect, h2]
  · intro h
    exact dictPop_not_mem _ _ (not_mem_of_dictGet_eq_none _ _ h)
  · intro k hk
    exact dictGet_dictPop_ne _ _ _ hk
  · simp [request, disconnect, h1]
  · simp [request, disconnect, h1]

/-- Claim C9 witness: disconnecting client A (whose connection handle is
still a live object) and then requesting A. -/
theorem C9_disconnect_witness :
    dictGet (some "A")
      (disconnect ⟨[(some "A", ⟨0, RecvBehavior.packet ⟨"RESPONSE", .str "pong"⟩⟩)],
        "s", "ov", false⟩ "A").connections = none ∧
    disconnect
      (disconnect ⟨[(some "A", ⟨0, RecvBehavior.packet ⟨"RESPONSE", .str "pong"⟩⟩)],
        "s", "ov", false⟩ "A") "A" =
      disconnect ⟨[(some "A", ⟨0, RecvBehavior.packet ⟨"RESPONSE", .str "pong"⟩⟩)],
        "s", "ov", false⟩ "A" ∧
    (dictGet (some "A")
        [(some "A", ⟨0, RecvBehavior.packet ⟨"RESPONSE", .str "pong"⟩⟩)] = none →
      (disconnect ⟨[(some "A", ⟨0, RecvBehavior.packet ⟨"RESPONSE", .str "pong"⟩⟩)],
        "s", "ov", false⟩ "A").connections =
        [(some "A", ⟨0, RecvBehavior.packet ⟨"RESPONSE", .str "pong"⟩⟩)]) ∧
    (∀ k, k ≠ some "A" →
      dictGet k (disconnect ⟨[(some "A", ⟨0, RecvBehavior.packet ⟨"RESPONSE", .str "pong"⟩⟩)],
        "s", "ov", false⟩ "A").connections =
        dictGet k [(some "A", ⟨0, RecvBehavior.packet ⟨"RESPONSE", .str "pong"⟩⟩)]) ∧
    (request (disconnect ⟨[(some "A", ⟨0, RecvBehavior.packet ⟨"RESPONSE", .str "pong"⟩⟩)],
        "s", "ov", false⟩ "A") "ping" "A" []).result = .error .unknownClient ∧
    (request (disconnect ⟨[(some "A", ⟨0, RecvBehavior.packet ⟨"RESPONSE", .str "pong"⟩⟩)],
        "s", "ov", false⟩ "A") "ping" "A" []).sent = [] :=
  C9_disconnect ⟨[(some "A", ⟨0, RecvBehavior.packet ⟨"RESPONSE", .str "pong"⟩⟩)],
    "s", "ov", false⟩ "A" "ping" [] (by simp)

/-- Fan-out loop lemma: in plain websocket mode, when no connection
exhibits a FastAPI-style disconnect, the loop yields exactly one entry
per registry entry, classifying each as `fanoutEntry` does. -/
theorem requestAllGo_complete (srv : Server) (route : String)
    (kwargs : List (String × String))
    (hmode : srv.usingFastapiWebsockets = false) :
    ∀ l : Registry, (∀ p ∈ l, p.2.recvBehavior ≠ RecvBehavior.disconnected) →
      requestAllGo srv route kwargs l =
        .ok (l.map fun p => (p.1, fanoutEntry p.2)) := by
  intro l
  induction l with
  | nil => intro _; rfl
  | cons hd tl ih =>
      intro hp
      obtain ⟨i, conn⟩ := hd
      have hconn := hp (i, conn) (List.mem_cons_self _ _)
      have htl : ∀ p ∈ tl, p.2.recvBehavior ≠ RecvBehavior.disconnected :=
        fun p h => hp p (List.mem_cons_of_mem _ h)
      cases hb : conn.recvBehavior with
      | packet pkt =>
          by_cases hft : pkt.type = "FAILURE_RESPONSE" <;>
            simp [requestAllGo, recv, hmode, hb, hft, ih htl, fanoutEntry]
      | closedOK =>
          simp [requestAllGo, recv, hmode, hb, ih htl, fanoutEntry]
      | disconnected => exact absurd hb hconn

/-- Claim C2 counterexample: the claim as stated is false.  In FastAPI
mode a disconnected connection makes `_recv` raise RequestFailed, which
the `except ConnectionClosedOK` clause of `request_all` does not catch:
the call raises instead of returning a mapping, so one connection does
prevent results from being collected. -/
theorem C2_request_all_counterexample :
    request_all ⟨[(some "A", ⟨0, RecvBehavior.disconnected⟩)], "s", "ov", true⟩
        "ping" [] =
      .error (.requestFailed
        (.str "Websocket disconnected while waiting for receive.")) ∧
    ∀ l, request_all ⟨[(some "A", ⟨0, RecvBehavior.disconnected⟩)], "s", "ov", true⟩
        "ping" [] ≠ .ok l := by
  refine ⟨rfl, fun l h => ?_⟩
  have h2 := (rfl :
    request_all ⟨[(some "A", ⟨0, RecvBehavior.disconnected⟩)], "s", "ov", true⟩
        "ping" [] =
      .error (.requestFailed
        (.str "Websocket disconnected while waiting for receive."))).symm.trans h
  exact Except.noConfusion h2

/-- Claim C2 (amended): in plain (non-FastAPI) websocket mode, where a
closed connection surfaces as ConnectionClosedOK, `request_all` never
raises for an individual client: it returns exactly one entry per
connection registered at iteration start, storing
RequestFailed("Connection Closed") for a closed connection and
RequestFailed(data) for a FAILURE_RESPONSE reply, so no connection's
failure prevents the others' results.  In FastAPI mode, however, a
disconnected connection makes request_all itself raise (see the
counterexample). -/
theorem C2_request_all_complete (srv : Server) (route : String)
    (kwargs : List (String × String))
    (hmode : srv.usingFastapiWebsockets = false)
    (hplain : ∀ p ∈ srv.connections,
      p.2.recvBehavior ≠ RecvBehavior.disconnected) :
    request_all srv route kwargs =
      .ok (srv.connections.map fun p => (p.1, fanoutEntry p.2)) ∧
    ∃ l, request_all srv route kwargs = .ok l ∧
      l.map Prod.fst = srv.connections.map Prod.fst := by
  have h := requestAllGo_complete srv route kwargs hmode srv.connections hplain
  exact ⟨h, _, h, by simp⟩

/-- Claim C2 witness: three registered clients — A replies "pong", B
replies FAILURE_RESPONSE "boom", C is closed — and request_all returns a
three-entry mapping where the failures are stored, not raised. -/
theorem C2_request_all_complete_witness :
    request_all ⟨[(some "A", ⟨0, RecvBehavior.packet ⟨"RESPONSE", .str "pong"⟩⟩),
        (some "B", ⟨1, RecvBehavior.packet ⟨"FAILURE_RESPONSE", .str "boom"⟩⟩),
        (some "C", ⟨2, RecvBehavior.closedOK⟩)], "s", "ov", false⟩ "ping" [] =
      .ok [(some "A", .value (.str "pong")),
        (some "B", .requestFailedVal (.str "boom")),
        (some "C", .requestFailedVal (.str "Connection Closed"))] :=
  (C2_request_all_complete
    ⟨[(some "A", ⟨0, RecvBehavior.packet ⟨"RESPONSE", .str "pong"⟩⟩),
      (some "B", ⟨1, RecvBehavior.packet ⟨"FAILURE_RESPONSE", .str "boom"⟩⟩),
      (some "C", ⟨2, RecvBehavior.closedOK⟩)], "s", "ov", false⟩
    "ping" [] rfl (by decide)).1

end Zonis
